import Mathlib

/-!
Verification of the Engine Bridge of the Adaptive Library Search System
(src/flask_app/app.py) against its natural-language specification.

The bridge is shallowly embedded: the module-level mutable globals
(BACKEND_PROCESS, USE_MOCK_BACKEND, MOCK_BOOKS), the MongoDB collections and
the flat CSV files become fields of an explicit state record `SysState`;
each Python function becomes a pure state-passing Lean function of the same
name.  Python exceptions are modelled with `Except String`: an `error`
carries (an abbreviation of) the exception text.  The engine child process
is modelled by `Proc`: its pending standard-output lines at line/parse
granularity, an exit flag as reported by poll(), and the request lines
written to its standard input.  The outcomes of successive Popen calls are
an environment input `spawn_queue` (a `none` entry means Popen raises).
-/

namespace App

/-- JSON values, as produced by json.loads / consumed by json.dumps. -/
inductive Json where
  | null : Json
  | bool : Bool → Json
  | num : Int → Json
  | str : String → Json
  | arr : List Json → Json
  | obj : List (String × Json) → Json

/-- Python dict .get(k): first binding of the key, none when absent. -/
def Json.getField : Json → String → Option Json
  | .obj fields, k => fields.lookup k
  | _, _ => none

/-- Python truthiness of a JSON value. -/
def Json.truthy : Json → Bool
  | .null => false
  | .bool b => b
  | .num n => n != 0
  | .str s => s != ""
  | .arr xs => !xs.isEmpty
  | .obj fs => !fs.isEmpty

/-- Truthiness of the result of dict .get (absent key gives falsy None). -/
def optTruthy (o : Option Json) : Bool :=
  match o with
  | none => false
  | some v => v.truthy

/-- Whether the first list starts the second (structural, so that concrete
evaluation reduces definitionally). -/
def leadsWith : List Char → List Char → Bool
  | [], _ => true
  | _ :: _, [] => false
  | a :: as, b :: bs => a == b && leadsWith as bs

/-- Whether the first list occurs inside the second. -/
def containsSeg (needle : List Char) : List Char → Bool
  | [] => leadsWith needle []
  | c :: cs => leadsWith needle (c :: cs) || containsSeg needle cs

/-- Python substring test: needle in hay. -/
def strContains (hay needle : String) : Bool :=
  containsSeg needle.data hay.data

/-- Digit-string accumulation for the model of Python int(). -/
def parseDigits (acc : Nat) : List Char → Option Nat
  | [] => some acc
  | c :: cs =>
    if c.isDigit then parseDigits (acc * 10 + (c.toNat - 48)) cs else none

/-- The model of Python int() on a string: an optional sign followed by at
least one digit (surrounding whitespace and underscores are not modelled). -/
def str_toInt (s : String) : Option Int :=
  match s.data with
  | [] => none
  | '-' :: cs =>
    match cs with
    | [] => none
    | _ :: _ => (parseDigits 0 cs).map (fun n => -(n : Int))
  | cs => (parseDigits 0 cs).map (fun n => (n : Int))

/-- The failure dictionaries the bridge builds locally. -/
def errResp (msg : String) : Json :=
  .obj [("success", .bool false), ("message", .str msg)]

/-- AttributeError text raised by BACKEND_PROCESS.poll() when the handle is
None (Python renders it with quotes around NoneType and poll). -/
def pollAttrMsg : String := "NoneType object has no attribute poll"

/-- AttributeError text raised by BACKEND_PROCESS.stdin when the handle is
None after a failed restart. -/
def stdinAttrMsg : String := "NoneType object has no attribute stdin"

/-- json.JSONDecodeError text; Python renders a position, modelled here as a
function of the offending line. -/
def jsonDecodeMsg (raw : String) : String := "JSONDecodeError: " ++ raw

/-- A MongoDB book document (fields optional, as .get is used throughout). -/
structure BookDoc where
  isbn : Option String
  title : Option String
  author : Option String
  category : Option String
  copies : Option Int

/-- A MongoDB user document. -/
structure UserDoc where
  userID : Option String
  name : Option String
  email : Option String
  type : Option String

/-- A MongoDB transaction document. -/
structure TxnDoc where
  tid : Option String
  userID : Option String
  isbn : Option String
  copyID : Option String
  type : Option String
  timestamp : Option Int

/-- The three collections of the library_system database. -/
structure Db where
  books : List BookDoc
  users : List UserDoc
  transactions : List TxnDoc

/-- A CSV flat file: the header row and the data rows, at cell granularity. -/
structure CsvFile where
  header : List String
  rows : List (List String)

/-- One line available on the engine's standard output, at parse
granularity: either not valid JSON, or the JSON value it parses to. -/
inductive Line where
  | invalid : String → Line
  | jsonVal : Json → Line

/-- The engine child process: exit status as poll() reports it, pending
standard-output lines, and the request payloads written to its stdin. -/
structure Proc where
  exited : Bool
  stdoutLines : List Line
  stdinWrites : List Json

/-- readline() on the process stdout: yield the first pending line and drop
it; none models the empty string read at end of input / closed stream. -/
def readline (p : Proc) : Proc × Option Line :=
  ({ p with stdoutLines := p.stdoutLines.tail }, p.stdoutLines.head?)

/-- A book row of the bundled snapshot as parsed by load_mock_books. -/
structure MockBook where
  isbn : String
  title : String
  author : String
  category : String
  copies : Int

/-- Observable actions of one send_to_backend call against the engine. -/
inductive Ev where
  | spawn : Ev
  | bannerRead : Ev
  | writeReq : Json → Ev
  | readResp : Ev

/-- The whole mutable state of app.py plus its file/database environment.
spawn_queue is the environment model: the behaviors of the processes that
successive subprocess.Popen calls would create (none models Popen raising;
an exhausted queue also models Popen raising). -/
structure SysState where
  db : Option Db
  BOOKS_CSV : Option CsvFile
  USERS_CSV : Option CsvFile
  TRANS_CSV : Option CsvFile
  local_books_csv : Option CsvFile
  local_users_csv : Option CsvFile
  backend_executable_exists : Bool
  BACKEND_PROCESS : Option Proc
  USE_MOCK_BACKEND : Bool
  MOCK_BOOKS : List MockBook
  spawn_queue : List (Option Proc)

/-- Fixed column list for the books flat file (app.py line 81). -/
def booksHeader : List String := ["ISBN", "Title", "Author", "Category", "Copies"]

/-- Fixed column list for the users flat file (app.py line 97). -/
def usersHeader : List String := ["UserID", "Name", "Email", "Type"]

/-- Fixed column list for the transactions flat file (app.py line 111). -/
def transHeader : List String := ["TID", "UID", "BID", "CID", "Type", "Timestamp"]

/-- The exception pymongo raises when a Database object is truth-tested:
Database.__bool__ is defined to raise, so Python code must compare with
None instead of writing `if not db`. -/
def notImplementedMsg : String :=
  "NotImplementedError: Database objects do not implement truth value testing. Compare with None instead"

/-- rehydrate_from_mongodb (app.py lines 71-125).  Its first statement is
`if not db: return`, which truth-tests the client value: with no client
configured (db is None) the function returns immediately; with a configured
store, db is a pymongo Database and pymongo raises NotImplementedError on
the truth test, so the file-writing body at lines 75-125 is unreachable in
both cases and the function can never write a flat file. -/
def rehydrate_from_mongodb (st : SysState) : SysState × Option String :=
  match st.db with
  | none => (st, none)
  | some _ => (st, some notImplementedMsg)

/-- initial_migration (app.py lines 127-164).  Same first statement
`if not db: return`: with no client it returns immediately; with a
configured store the truth test raises NotImplementedError before any
count_documents check, file read or insert_many, so the migration body at
lines 131-164 is unreachable and no document is ever inserted. -/
def initial_migration (st : SysState) : SysState × Option String :=
  match st.db with
  | none => (st, none)
  | some _ => (st, some notImplementedMsg)

/-- The startup synchronisation sequence of start_backend (app.py lines
200-201): initial_migration then, when it did not raise, the rehydration
pass.  The spec calls this runStartupSync. -/
def runStartupSync (st : SysState) : SysState × Option String :=
  match initial_migration st with
  | (st1, some e) => (st1, some e)
  | (st1, none) => rehydrate_from_mongodb st1

/-- int(parts[4]) if len(parts) > 4 else 1, from load_mock_books. -/
def parseMockCopies (parts : List String) : Except String Int :=
  if parts.length > 4 then
    match str_toInt (parts.getD 4 "") with
    | some n => .ok n
    | none => .error "ValueError"
  else .ok 1

/-- The row loop of load_mock_books: rows with at least 4 cells become
mock books; any exception empties the result. -/
def parseMockRows : List (List String) → Except String (List MockBook)
  | [] => .ok []
  | parts :: rest =>
    if 4 ≤ parts.length then
      match parseMockCopies parts with
      | .error e => .error e
      | .ok c =>
        match parseMockRows rest with
        | .error e => .error e
        | .ok bs =>
          .ok ({ isbn := parts.getD 0 "", title := parts.getD 1 "",
                 author := parts.getD 2 "", category := parts.getD 3 "",
                 copies := c } :: bs)
    else parseMockRows rest

/-- load_mock_books (app.py lines 168-185): parse the bundled snapshot into
MOCK_BOOKS; a missing file or any exception leaves MOCK_BOOKS empty. -/
def load_mock_books (st : SysState) : SysState :=
  { st with
    MOCK_BOOKS :=
      match st.local_books_csv with
      | none => []
      | some f =>
        match parseMockRows f.rows with
        | .error _ => []
        | .ok bs => bs }

/-- The Popen/banner section of start_backend (app.py lines 211-227):
spawn the engine and consume one readiness-banner line from its standard
output; a Popen failure degrades and leaves the handle clear. -/
def spawn_step (st1 : SysState) : SysState × List Ev :=
  match st1.spawn_queue with
  | [] => ({ st1 with USE_MOCK_BACKEND := true }, [])
  | none :: rest =>
    ({ st1 with USE_MOCK_BACKEND := true, spawn_queue := rest }, [])
  | some p :: rest =>
    ({ st1 with BACKEND_PROCESS := some ((readline p).1), spawn_queue := rest },
     [Ev.spawn, Ev.bannerRead])

/-- start_backend (app.py lines 189-227).  Missing executable: degrade and
return.  Handle present: no-op.  Otherwise run the startup sync (an
exception there degrades but the spawn still proceeds), then spawn. -/
def start_backend (st : SysState) : SysState × List Ev :=
  if st.backend_executable_exists = false then
    ({ st with USE_MOCK_BACKEND := true }, [])
  else
    match st.BACKEND_PROCESS with
    | some _ => (st, [])
    | none =>
      spawn_step
        (match runStartupSync st with
         | (st', some _) => { st' with USE_MOCK_BACKEND := true }
         | (st', none) => st')

/-- The write/flush/readline/parse tail of send_to_backend (app.py lines
254-261); a cleared handle at this point raises AttributeError on .stdin,
caught by the surrounding except. -/
def writeAndRead (st : SysState) (payload : Json) : SysState × Json × List Ev :=
  match st.BACKEND_PROCESS with
  | none => (st, errResp stdinAttrMsg, [])
  | some q =>
    let q1 := { q with stdinWrites := q.stdinWrites ++ [payload] }
    let r := readline q1
    let st1 := { st with BACKEND_PROCESS := some r.1 }
    match r.2 with
    | none =>
      (st1, errResp "Backend not responding (Empty Output)",
       [Ev.writeReq payload, Ev.readResp])
    | some (.invalid raw) =>
      (st1, errResp (jsonDecodeMsg raw), [Ev.writeReq payload, Ev.readResp])
    | some (.jsonVal v) => (st1, v, [Ev.writeReq payload, Ev.readResp])

/-- The committed stub of the USE_MOCK_BACKEND branch at the top of
send_to_backend (app.py lines 233-244): it loads MOCK_BOOKS when empty,
reads the action field, and falls through without returning. -/
def mock_prelude (st : SysState) : SysState :=
  if st.USE_MOCK_BACKEND then
    (if st.MOCK_BOOKS.isEmpty then load_mock_books st else st)
  else st

/-- send_to_backend (app.py lines 229-264).  The USE_MOCK_BACKEND branch is
the committed stub: it loads MOCK_BOOKS when empty and falls through.
start_backend is then called unconditionally; a None handle raises
AttributeError on poll(), an exited handle is cleared and restarted once,
and the payload is written to and the response read from whichever handle
resulted.  Every exception is caught and returned as a failure dict. -/
def send_to_backend (st0 : SysState) (payload : Json) : SysState × Json × List Ev :=
  let sb := start_backend (mock_prelude st0)
  match sb.1.BACKEND_PROCESS with
  | none => (sb.1, errResp pollAttrMsg, sb.2)
  | some p =>
    if p.exited then
      let sb2 := start_backend { sb.1 with BACKEND_PROCESS := none }
      let wr := writeAndRead sb2.1 payload
      (wr.1, wr.2.1, sb.2 ++ sb2.2 ++ wr.2.2)
    else
      let wr := writeAndRead sb.1 payload
      (wr.1, wr.2.1, sb.2 ++ wr.2.2)

/-- The two literal recoverable markers of send_with_retry. -/
def recoverableMsg (s : String) : Bool :=
  strContains s "User not found" || strContains s "Invalid user"

/-- The Flask session, as read by send_with_retry. -/
structure Session where
  user_id : Option String
  name : Option String
  user_type : Option String

/-- The add_user payload built by ensure_user_registered. -/
def addUserPayload (uid nm ty : String) : Json :=
  .obj [("action", .str "add_user"), ("userID", .str uid),
        ("name", .str nm), ("type", .str ty)]

/-- ensure_user_registered (app.py lines 266-277): a side-effect add_user
call whose result is discarded. -/
def ensure_user_registered (st : SysState) (uid nm ty : String) : SysState :=
  (send_to_backend st (addUserPayload uid nm ty)).1

/-- send_with_retry (app.py lines 279-291).  Besides the final response it
returns the list of payloads dispatched to send_to_backend, in order.  The
error cases model the exceptions this function does not catch: when the
first response is not a dict, response.get raises AttributeError; when the
message field holds a non-string and success is falsy, the Python
in-operator raises TypeError. -/
def send_with_retry (st : SysState) (sess : Session) (payload : Json) :
    Except String (SysState × Json × List Json) :=
  let c1 := send_to_backend st payload
  match c1.2.1 with
  | .obj _ =>
    if optTruthy (c1.2.1.getField "success") then
      .ok (c1.1, c1.2.1, [payload])
    else
      match c1.2.1.getField "message" with
      | some (.str m) =>
        if recoverableMsg m then
          match sess.user_id with
          | some uid =>
            let nm := sess.name.getD "User"
            let ty := sess.user_type.getD "student"
            let st2 := ensure_user_registered c1.1 uid nm ty
            let c3 := send_to_backend st2 payload
            .ok (c3.1, c3.2.1, [payload, addUserPayload uid nm ty, payload])
          | none => .ok (c1.1, c1.2.1, [payload])
        else .ok (c1.1, c1.2.1, [payload])
      | none => .ok (c1.1, c1.2.1, [payload])
      | some _ => .error "TypeError: argument of type is not iterable"
  | _ => .error "AttributeError: object has no attribute get"

/-- The books collection of a state (empty when no client is configured). -/
def dbBooksOf (st : SysState) : List BookDoc :=
  match st.db with
  | none => []
  | some d => d.books

/-- The users collection of a state. -/
def dbUsersOf (st : SysState) : List UserDoc :=
  match st.db with
  | none => []
  | some d => d.users

/-- A response is well-formed when it carries success and message fields. -/
def wellFormedResp (r : Json) : Bool :=
  (r.getField "success").isSome && (r.getField "message").isSome

/-- The message field is absent or a string (the only cases in which the
Python in-operator of send_with_retry does not raise). -/
def msgIsStr (r : Json) : Bool :=
  match r.getField "message" with
  | none => true
  | some (.str _) => true
  | some _ => false

/-- Whether a response is a dict (the only shape on which Python .get does
not raise AttributeError). -/
def isDictResp : Json → Bool
  | .obj _ => true
  | _ => false

/-- The retry condition of send_with_retry, as the claim states it:
success falsy, message containing a recoverable marker, identity in the
session. -/
def retry_condition (r : Json) (sess : Session) : Bool :=
  !optTruthy (r.getField "success")
  && (match r.getField "message" with
      | some (.str m) => recoverableMsg m
      | _ => false)
  && sess.user_id.isSome

/-- The JSON values among the pending stdout lines of a process. -/
def stdoutJsonVals (p : Proc) : List Json :=
  p.stdoutLines.filterMap (fun l =>
    match l with
    | .jsonVal v => some v
    | .invalid _ => none)

/-- The JSON values an optional process handle could still emit. -/
def procVals : Option Proc → List Json
  | none => []
  | some p => stdoutJsonVals p

/-- The JSON values the spawnable processes could emit. -/
def spawnVals (q : List (Option Proc)) : List Json :=
  (q.map procVals).flatten

/-- Every JSON value the engine side of a state could still hand to the
bridge: pending output of the live handle plus of every spawnable one. -/
def engineVals (st : SysState) : List Json :=
  procVals st.BACKEND_PROCESS ++ spawnVals st.spawn_queue

/-- How a live process handle looks after one write/readline round: the
request appended to its stdin, the first pending output line consumed. -/
def procAfter (q : Proc) (payload : Json) : Proc :=
  { q with stdoutLines := q.stdoutLines.tail,
           stdinWrites := q.stdinWrites ++ [payload] }

/-! ## Concrete states used by the closed theorems and witnesses -/

/-- A state in which nothing is configured or running. -/
def baseState : SysState :=
  { db := none, BOOKS_CSV := none, USERS_CSV := none, TRANS_CSV := none,
    local_books_csv := none, local_users_csv := none,
    backend_executable_exists := false, BACKEND_PROCESS := none,
    USE_MOCK_BACKEND := false, MOCK_BOOKS := [], spawn_queue := [] }

/-- The bundled books snapshot used by the degraded engine, holding one
Tolkien row. -/
def tolkienSnapshot : CsvFile :=
  ⟨booksHeader,
   [["978-0261103344", "The Hobbit", "J.R.R. Tolkien", "Fantasy", "3"]]⟩

/-- The payload of end-to-end scenario A. -/
def searchTolkien : Json :=
  .obj [("action", .str "search"), ("query", .str "Tolkien"),
        ("type", .str "author")]

/-- A payload with no action-specific fields. -/
def undoPayload : Json := .obj [("action", .str "undo")]

/-- The readiness banner line (not valid JSON). -/
def bannerLine : Line := .invalid "Library System Ready"

/-- A live engine process with the given pending output. -/
def liveProc (ls : List Line) : Proc := ⟨false, ls, []⟩

/-- An engine process whose poll() reports it has exited. -/
def deadProc : Proc := ⟨true, [], []⟩

/-- The state of end-to-end scenario A: the executable exists at none of
the candidate paths, the bundled snapshot is present, nothing started. -/
def engineAbsentState : SysState :=
  { baseState with local_books_csv := some tolkienSnapshot }

/-- The state of end-to-end scenario C just after the engine was killed
externally: a handle whose poll() reports exited, and a spawnable fresh
process that will print its banner and then answer. -/
def crashedState : SysState :=
  { baseState with
    backend_executable_exists := true,
    BACKEND_PROCESS := some deadProc,
    spawn_queue :=
      [some (liveProc [bannerLine,
        .jsonVal (.obj [("success", .bool true), ("message", .str "ok")])])] }

/-- A state whose live engine process will produce no further output. -/
def silentState : SysState :=
  { baseState with
    backend_executable_exists := true,
    BACKEND_PROCESS := some (liveProc []) }

/-- First response of the scripted retry scenario: a recoverable marker. -/
def userNotFoundResp : Json :=
  .obj [("success", .bool false), ("message", .str "User not found")]

/-- A state whose live engine first reports the unknown user, accepts the
re-registration, and then answers the re-issued request. -/
def retryState : SysState :=
  { baseState with
    backend_executable_exists := true,
    BACKEND_PROCESS := some (liveProc
      [.jsonVal userNotFoundResp,
       .jsonVal (.obj [("success", .bool true), ("message", .str "added")]),
       .jsonVal (.obj [("success", .bool true), ("message", .str "done")])]) }

/-- A session with a full identity. -/
def retrySession : Session := ⟨some "u1", some "Alice", some "student"⟩

/-- The payload retried in the scripted scenario. -/
def profilePayload : Json :=
  .obj [("action", .str "profile"), ("userID", .str "u1")]

/-- A pre-populated books collection entry. -/
def bookDocA : BookDoc := ⟨some "B1", some "T1", some "A1", some "C1", some 2⟩

/-- A pre-populated users collection entry. -/
def userDocA : UserDoc := ⟨some "u9", some "Zed", some "z@lib", some "STAFF"⟩

/-- A state with non-empty books and users collections and legacy flat
files holding different content. -/
def prePopulatedState : SysState :=
  { baseState with
    db := some ⟨[bookDocA], [userDocA], []⟩,
    local_books_csv := some ⟨booksHeader, [["X", "Y", "Z", "W", "9"]]⟩,
    local_users_csv := some ⟨usersHeader, [["q", "r", "s", "t"]]⟩ }

/-- A stale books flat file with one data row, left over on disk. -/
def staleBooksFile : CsvFile := ⟨booksHeader, [["B1", "T", "A", "C", "2"]]⟩

/-- The state of end-to-end scenario D, with one lower-case, one upper-case
and one mixed-case Type cell in the legacy users file. -/
def threeUsersState : SysState :=
  { baseState with
    db := some ⟨[], [], []⟩,
    local_users_csv := some ⟨usersHeader,
      [["u1", "Alice", "a@lib", "student"],
       ["u2", "Bob", "b@lib", "STAFF"],
       ["u3", "Cara", "c@lib", "faculty"]]⟩ }

/-- A state with no client configured and a spawnable engine. -/
def noDbState : SysState :=
  { baseState with
    backend_executable_exists := true,
    BOOKS_CSV := some staleBooksFile,
    spawn_queue := [some (liveProc [bannerLine])] }

/-- A state whose live engine will answer with a bare JSON number. -/
def bareNumberState : SysState :=
  { baseState with
    backend_executable_exists := true,
    BACKEND_PROCESS := some (liveProc [.jsonVal (.num 42)]) }

/-! ## Lemmas about the startup sync and the process supervisor -/

lemma runStartupSync_state (st : SysState) : (runStartupSync st).1 = st := by
  unfold runStartupSync initial_migration rehydrate_from_mongodb
  rcases hdb : st.db with _ | d
  · dsimp only
    rw [hdb]
  · dsimp only

lemma mock_prelude_frame (st : SysState) :
    (mock_prelude st).BACKEND_PROCESS = st.BACKEND_PROCESS ∧
    (mock_prelude st).spawn_queue = st.spawn_queue ∧
    (mock_prelude st).USE_MOCK_BACKEND = st.USE_MOCK_BACKEND ∧
    (mock_prelude st).backend_executable_exists = st.backend_executable_exists ∧
    (mock_prelude st).db = st.db ∧
    (mock_prelude st).BOOKS_CSV = st.BOOKS_CSV ∧
    (mock_prelude st).USERS_CSV = st.USERS_CSV ∧
    (mock_prelude st).TRANS_CSV = st.TRANS_CSV ∧
    (mock_prelude st).local_books_csv = st.local_books_csv ∧
    (mock_prelude st).local_users_csv = st.local_users_csv := by
  unfold mock_prelude
  split_ifs <;> exact ⟨rfl, rfl, rfl, rfl, rfl, rfl, rfl, rfl, rfl, rfl⟩

lemma mock_prelude_of_not_mock (st : SysState) (h : st.USE_MOCK_BACKEND = false) :
    mock_prelude st = st := by
  unfold mock_prelude
  rw [h]
  simp

lemma start_backend_noop (st : SysState) (p : Proc)
    (hexec : st.backend_executable_exists = true)
    (hproc : st.BACKEND_PROCESS = some p) :
    start_backend st = (st, []) := by
  unfold start_backend
  rw [hexec, hproc]
  simp

lemma start_backend_spawns (st : SysState) (q : Proc) (rest : List (Option Proc))
    (hexec : st.backend_executable_exists = true)
    (hproc : st.BACKEND_PROCESS = none)
    (hq : st.spawn_queue = some q :: rest) :
    (start_backend st).1.BACKEND_PROCESS = some ((readline q).1) ∧
    (start_backend st).1.spawn_queue = rest ∧
    (start_backend st).2 = [Ev.spawn, Ev.bannerRead] := by
  unfold start_backend
  rw [hexec, hproc]
  simp only [Bool.true_eq_false, if_false]
  rcases hm : runStartupSync st with ⟨st1, e⟩
  have hst : st1 = st := by
    have h2 := runStartupSync_state st
    rw [hm] at h2
    exact h2
  subst hst
  cases e with
  | none =>
    dsimp only
    unfold spawn_step
    rw [hq]
    exact ⟨rfl, rfl, rfl⟩
  | some err =>
    dsimp only
    unfold spawn_step
    dsimp only
    rw [hq]
    exact ⟨rfl, rfl, rfl⟩

lemma writeAndRead_spec (st : SysState) (payload : Json) (q : Proc)
    (h : st.BACKEND_PROCESS = some q) :
    (writeAndRead st payload).1 =
      { st with BACKEND_PROCESS := some (procAfter q payload) } ∧
    (writeAndRead st payload).2.2 = [Ev.writeReq payload, Ev.readResp] := by
  unfold writeAndRead
  rw [h]
  rcases hl : q.stdoutLines with _ | ⟨a, as⟩
  · simp [readline, hl, procAfter]
  · cases a <;> simp [readline, hl, procAfter]

lemma writeAndRead_resp (st : SysState) (payload : Json) :
    wellFormedResp (writeAndRead st payload).2.1 = true ∨
    (writeAndRead st payload).2.1 ∈ procVals st.BACKEND_PROCESS := by
  unfold writeAndRead
  rcases h : st.BACKEND_PROCESS with _ | q
  · exact Or.inl rfl
  · rcases hl : q.stdoutLines with _ | ⟨a, as⟩
    · simp only [readline, hl]
      exact Or.inl rfl
    · cases a with
      | invalid raw =>
        simp only [readline, hl]
        exact Or.inl rfl
      | jsonVal v =>
        simp only [readline, hl]
        refine Or.inr ?_
        simp [procVals, stdoutJsonVals, hl]

/-! ## Claim theorems -/

/-- Claim C1 (code bug): with the engine executable absent, a call never
spawns a process, but it is NOT served by the Degraded Engine: the
committed mock branch falls through, start_backend leaves the handle None,
and BACKEND_PROCESS.poll() raises AttributeError, so the search for
Tolkien returns the caught-exception failure dict instead of a
snapshot-built success — on the first call and on every subsequent one. -/
theorem engine_absent_call_returns_poll_error :
    (send_to_backend engineAbsentState searchTolkien).2.1 = errResp pollAttrMsg
    ∧ (send_to_backend engineAbsentState searchTolkien).2.2 = []
    ∧ (send_to_backend engineAbsentState searchTolkien).1.USE_MOCK_BACKEND = true
    ∧ (send_to_backend engineAbsentState searchTolkien).1.BACKEND_PROCESS = none
    ∧ optTruthy (((send_to_backend engineAbsentState searchTolkien).2.1).getField "success") = false
    ∧ (send_to_backend (send_to_backend engineAbsentState searchTolkien).1
        searchTolkien).2.1 = errResp pollAttrMsg
    ∧ (send_to_backend (send_to_backend engineAbsentState searchTolkien).1
        searchTolkien).2.2 = [] := by
  exact ⟨rfl, rfl, rfl, rfl, rfl, rfl, rfl⟩

/-- Claim C3: if the recorded handle reports the process has exited, the
same call clears the handle, performs exactly one restart with exactly one
readiness-banner read, and only then writes the pending request to the new
process and reads its response. -/
theorem call_after_crash_restarts_once (st : SysState) (p q : Proc)
    (rest : List (Option Proc)) (payload : Json)
    (hmock : st.USE_MOCK_BACKEND = false)
    (hexec : st.backend_executable_exists = true)
    (hproc : st.BACKEND_PROCESS = some p)
    (hdead : p.exited = true)
    (hq : st.spawn_queue = some q :: rest) :
    (send_to_backend st payload).2.2 =
      [Ev.spawn, Ev.bannerRead, Ev.writeReq payload, Ev.readResp] ∧
    (send_to_backend st payload).1.BACKEND_PROCESS =
      some (procAfter ((readline q).1) payload) ∧
    (send_to_backend st payload).1.spawn_queue = rest := by
  unfold send_to_backend
  rw [mock_prelude_of_not_mock st hmock, start_backend_noop st p hexec hproc]
  dsimp only
  rw [hproc]
  dsimp only
  rw [hdead]
  simp only [if_true]
  have hsp := start_backend_spawns { st with BACKEND_PROCESS := none } q rest
    hexec rfl hq
  obtain ⟨s1, s2, s3⟩ := hsp
  have hw := writeAndRead_spec
    (start_backend { st with BACKEND_PROCESS := none }).1 payload
    ((readline q).1) s1
  obtain ⟨w1, w2⟩ := hw
  refine ⟨?_, ?_, ?_⟩
  · rw [s3, w2]
    rfl
  · rw [w1]
  · rw [w1]
    exact s2

/-- Witness for C3 at a concrete crashed state. -/
theorem call_after_crash_restarts_once_witness :
    (send_to_backend crashedState undoPayload).2.2 =
      [Ev.spawn, Ev.bannerRead, Ev.writeReq undoPayload, Ev.readResp] ∧
    (send_to_backend crashedState undoPayload).1.BACKEND_PROCESS =
      some (procAfter ((readline (liveProc [bannerLine,
        .jsonVal (.obj [("success", .bool true), ("message", .str "ok")])])).1)
        undoPayload) ∧
    (send_to_backend crashedState undoPayload).1.spawn_queue = [] :=
  call_after_crash_restarts_once crashedState deadProc
    (liveProc [bannerLine,
      .jsonVal (.obj [("success", .bool true), ("message", .str "ok")])])
    [] undoPayload rfl rfl rfl rfl rfl

/-- Claim C8: when the response read yields no data, the call returns
exactly the Empty Output failure response. -/
theorem call_empty_output (st : SysState) (p : Proc) (payload : Json)
    (hexec : st.backend_executable_exists = true)
    (hproc : st.BACKEND_PROCESS = some p)
    (halive : p.exited = false)
    (hout : p.stdoutLines = []) :
    (send_to_backend st payload).2.1 =
      errResp "Backend not responding (Empty Output)" := by
  obtain ⟨m1, m2, m3, m4, -, -, -, -, -, -⟩ := mock_prelude_frame st
  unfold send_to_backend
  rw [start_backend_noop (mock_prelude st) p (m4.trans hexec) (m1.trans hproc)]
  dsimp only
  rw [m1.trans hproc]
  dsimp only
  rw [halive]
  simp only [Bool.false_eq_true, if_false]
  unfold writeAndRead
  rw [m1.trans hproc]
  simp [readline, hout]

/-- Witness for C8 at a concrete state with a silent live engine. -/
theorem call_empty_output_witness :
    (send_to_backend silentState undoPayload).2.1 =
      errResp "Backend not responding (Empty Output)" :=
  call_empty_output silentState (liveProc []) undoPayload rfl rfl rfl rfl

lemma msgIsStr_cases (r : Json) (h : msgIsStr r = true) :
    r.getField "message" = none ∨ ∃ m, r.getField "message" = some (.str m) := by
  unfold msgIsStr at h
  rcases hg : r.getField "message" with _ | j
  · exact Or.inl rfl
  · rw [hg] at h
    cases j <;> simp at h
    case str m => exact Or.inr ⟨m, rfl⟩

lemma isDictResp_obj (r : Json) (h : isDictResp r = true) :
    ∃ fields, r = .obj fields := by
  cases r with
  | null => simp [isDictResp] at h
  | bool b => simp [isDictResp] at h
  | num n => simp [isDictResp] at h
  | str s => simp [isDictResp] at h
  | arr xs => simp [isDictResp] at h
  | obj fields => exact ⟨fields, rfl⟩

/-- Claim C2: send_with_retry retries exactly when the first response has a
falsy success, a message containing one of the two literal markers, and a
session identity; the retry consists of one discarded add_user dispatch
with that identity followed by one re-issue of the original payload, whose
response is returned; otherwise the first response is returned and only the
original payload was dispatched.  The hypotheses restrict to first
responses on which the function returns at all: a dict (response.get on
anything else raises AttributeError) whose message field is absent or a
string (the in-operator on anything else raises TypeError). -/
theorem send_with_retry_correct (st : SysState) (sess : Session) (payload : Json)
    (h1 : isDictResp (send_to_backend st payload).2.1 = true)
    (h : msgIsStr (send_to_backend st payload).2.1 = true) :
    (∀ uid, sess.user_id = some uid →
      retry_condition (send_to_backend st payload).2.1 sess = true →
      send_with_retry st sess payload =
        .ok ((send_to_backend (ensure_user_registered
                (send_to_backend st payload).1 uid (sess.name.getD "User")
                (sess.user_type.getD "student")) payload).1,
             (send_to_backend (ensure_user_registered
                (send_to_backend st payload).1 uid (sess.name.getD "User")
                (sess.user_type.getD "student")) payload).2.1,
             [payload,
              addUserPayload uid (sess.name.getD "User") (sess.user_type.getD "student"),
              payload])) ∧
    (retry_condition (send_to_backend st payload).2.1 sess = false →
      send_with_retry st sess payload =
        .ok ((send_to_backend st payload).1, (send_to_backend st payload).2.1,
             [payload])) := by
  obtain ⟨fields, hf⟩ := isDictResp_obj _ h1
  rw [hf] at h ⊢
  cases hs : optTruthy ((Json.obj fields).getField "success") with
  | true =>
    constructor
    · intro uid huid hcond
      unfold retry_condition at hcond
      rw [hs] at hcond
      simp at hcond
    · intro _
      unfold send_with_retry
      dsimp only
      rw [hf]
      dsimp only
      rw [hs]
      simp
  | false =>
    rcases msgIsStr_cases _ h with hmsg | ⟨m, hmsg⟩
    · constructor
      · intro uid huid hcond
        unfold retry_condition at hcond
        rw [hs, hmsg] at hcond
        simp at hcond
      · intro _
        unfold send_with_retry
        dsimp only
        rw [hf]
        dsimp only
        rw [hs, hmsg]
        simp
    · cases hrec : recoverableMsg m with
      | false =>
        constructor
        · intro uid huid hcond
          unfold retry_condition at hcond
          rw [hs, hmsg] at hcond
          dsimp only at hcond
          rw [hrec] at hcond
          simp at hcond
        · intro _
          unfold send_with_retry
          dsimp only
          rw [hf]
          dsimp only
          rw [hs, hmsg]
          simp only [Bool.false_eq_true, if_false]
          rw [hrec]
          simp
      | true =>
        rcases huid0 : sess.user_id with _ | uid0
        · constructor
          · intro uid huid hcond
            exact Option.noConfusion huid
          · intro _
            unfold send_with_retry
            dsimp only
            rw [hf]
            dsimp only
            rw [hs, hmsg]
            simp only [Bool.false_eq_true, if_false]
            rw [hrec]
            simp only [if_true]
            rw [huid0]
        · constructor
          · intro uid huid hcond
            injection huid with he
            subst he
            unfold send_with_retry
            dsimp only
            rw [hf]
            dsimp only
            rw [hs, hmsg]
            simp only [Bool.false_eq_true, if_false]
            rw [hrec]
            simp only [if_true]
            rw [huid0]
          · intro hcond
            unfold retry_condition at hcond
            rw [hs, hmsg] at hcond
            dsimp only at hcond
            rw [hrec, huid0] at hcond
            simp at hcond

/-- Witness for C2 in the scripted retry scenario. -/
theorem send_with_retry_correct_witness :
    send_with_retry retryState retrySession profilePayload =
      .ok ((send_to_backend (ensure_user_registered
              (send_to_backend retryState profilePayload).1 "u1" "Alice"
              "student") profilePayload).1,
           (send_to_backend (ensure_user_registered
              (send_to_backend retryState profilePayload).1 "u1" "Alice"
              "student") profilePayload).2.1,
           [profilePayload, addUserPayload "u1" "Alice" "student",
            profilePayload]) :=
  (send_with_retry_correct retryState retrySession profilePayload (by rfl)
      (by rfl)).1
    "u1" rfl (by rfl)

/-! ## Migration lemmas for C5 and C6 -/

/-- Claim C5: a non-empty books (users) collection is unchanged by the
startup sync, whatever the legacy flat files hold, and migration never
inserts into a non-empty collection.  This holds a fortiori of the source:
with a configured store, initial_migration raises NotImplementedError at
its first truth test of the Database value, before any count_documents
check or insert_many, so the sync never modifies any collection at all. -/
theorem migration_noop_on_nonempty (st : SysState) (d : Db)
    (hdb : st.db = some d) :
    (d.books ≠ [] → dbBooksOf (runStartupSync st).1 = d.books) ∧
    (d.users ≠ [] → dbUsersOf (runStartupSync st).1 = d.users) := by
  constructor
  · intro _
    unfold dbBooksOf
    rw [runStartupSync_state, hdb]
  · intro _
    unfold dbUsersOf
    rw [runStartupSync_state, hdb]

/-- Witness for C5: the pre-populated collections survive the sync. -/
theorem migration_noop_on_nonempty_witness :
    dbBooksOf (runStartupSync prePopulatedState).1 = [bookDocA] ∧
    dbUsersOf (runStartupSync prePopulatedState).1 = [userDocA] :=
  ⟨(migration_noop_on_nonempty prePopulatedState ⟨[bookDocA], [userDocA], []⟩
      rfl).1 (List.cons_ne_nil _ _),
   (migration_noop_on_nonempty prePopulatedState ⟨[bookDocA], [userDocA], []⟩
      rfl).2 (List.cons_ne_nil _ _)⟩

/-- Claim C4 (code bug): the rehydration pass is meant to overwrite the
three flat files from the store — its own docstring says it downloads data
from MongoDB to the local CSV files — but its first statement truth-tests
the pymongo Database, which raises NotImplementedError before any file is
written; start_backend catches the exception and degrades to the mock.
Evaluated at a configured store holding one book and one user: the
exception is raised, and no flat file exists afterwards even though the
collections are non-empty. -/
theorem rehydrate_raises_on_configured_store :
    rehydrate_from_mongodb prePopulatedState =
      (prePopulatedState, some notImplementedMsg) ∧
    (rehydrate_from_mongodb prePopulatedState).1.BOOKS_CSV = none ∧
    (rehydrate_from_mongodb prePopulatedState).1.USERS_CSV = none ∧
    (rehydrate_from_mongodb prePopulatedState).1.TRANS_CSV = none ∧
    (dbBooksOf prePopulatedState).length = 1 ∧
    (dbUsersOf prePopulatedState).length = 1 :=
  ⟨rfl, rfl, rfl, rfl, rfl, rfl⟩

/-- Claim C6 (code bug): end-to-end scenario D expects 3 user documents
after the sync, but initial_migration raises NotImplementedError at its
first truth test of the configured Database, before reading the legacy
file or inserting anything, so the users collection stays empty.  (Even
absent this crash, the insert code at app.py lines 155-162 copies the Type
cell verbatim, without upper-casing.) -/
theorem users_migration_never_runs :
    initial_migration threeUsersState =
      (threeUsersState, some notImplementedMsg) ∧
    dbUsersOf (runStartupSync threeUsersState).1 = [] ∧
    (dbUsersOf (runStartupSync threeUsersState).1).length ≠ 3 := by
  refine ⟨rfl, rfl, ?_⟩
  decide

/-! ## C10: no document-store client configured -/

/-- Claim C10: with no client configured, both sync passes return
immediately without touching collections or files, and the engine is
started in normal (non-degraded) mode against the flat files already on
disk. -/
theorem no_db_is_noop_and_starts_normal (st : SysState) (p : Proc)
    (rest : List (Option Proc))
    (hdb : st.db = none)
    (hmock : st.USE_MOCK_BACKEND = false)
    (hexec : st.backend_executable_exists = true)
    (hproc : st.BACKEND_PROCESS = none)
    (hq : st.spawn_queue = some p :: rest) :
    initial_migration st = (st, none) ∧
    rehydrate_from_mongodb st = (st, none) ∧
    (start_backend st).1.USE_MOCK_BACKEND = false ∧
    (start_backend st).1.BOOKS_CSV = st.BOOKS_CSV ∧
    (start_backend st).1.USERS_CSV = st.USERS_CSV ∧
    (start_backend st).1.TRANS_CSV = st.TRANS_CSV ∧
    (start_backend st).1.BACKEND_PROCESS = some ((readline p).1) ∧
    (start_backend st).2 = [Ev.spawn, Ev.bannerRead] := by
  have hmig : initial_migration st = (st, none) := by
    unfold initial_migration
    rw [hdb]
  have hreh : rehydrate_from_mongodb st = (st, none) := by
    unfold rehydrate_from_mongodb
    rw [hdb]
  have hsync : runStartupSync st = (st, none) := by
    unfold runStartupSync
    rw [hmig]
    dsimp only
    rw [hreh]
  have hsb : start_backend st =
      ({ st with BACKEND_PROCESS := some ((readline p).1), spawn_queue := rest },
       [Ev.spawn, Ev.bannerRead]) := by
    unfold start_backend
    rw [if_neg (show ¬(st.backend_executable_exists = false) by
      rw [hexec]; simp)]
    rw [hproc, hsync]
    dsimp only
    unfold spawn_step
    rw [hq]
  rw [hsb]
  exact ⟨hmig, hreh, hmock, rfl, rfl, rfl, rfl, rfl⟩

/-- Witness for C10 at a concrete state without a configured client. -/
theorem no_db_is_noop_and_starts_normal_witness :
    initial_migration noDbState = (noDbState, none) ∧
    rehydrate_from_mongodb noDbState = (noDbState, none) ∧
    (start_backend noDbState).1.USE_MOCK_BACKEND = false ∧
    (start_backend noDbState).1.BOOKS_CSV = noDbState.BOOKS_CSV ∧
    (start_backend noDbState).1.USERS_CSV = noDbState.USERS_CSV ∧
    (start_backend noDbState).1.TRANS_CSV = noDbState.TRANS_CSV ∧
    (start_backend noDbState).1.BACKEND_PROCESS =
      some ((readline (liveProc [bannerLine])).1) ∧
    (start_backend noDbState).2 = [Ev.spawn, Ev.bannerRead] :=
  no_db_is_noop_and_starts_normal noDbState (liveProc [bannerLine]) []
    rfl rfl rfl rfl rfl

/-! ## C7: the bridge never throws; what the caller can receive -/

lemma subvals_readline (q : Proc) :
    stdoutJsonVals (readline q).1 ⊆ stdoutJsonVals q := by
  intro x hx
  unfold stdoutJsonVals readline at hx
  dsimp only at hx
  unfold stdoutJsonVals
  rw [List.mem_filterMap] at hx ⊢
  obtain ⟨l, hl, he⟩ := hx
  exact ⟨l, List.mem_of_mem_tail hl, he⟩

lemma procVals_subset_engineVals (st : SysState) :
    procVals st.BACKEND_PROCESS ⊆ engineVals st :=
  List.subset_append_left _ _

lemma engineVals_mock (st : SysState) :
    engineVals (mock_prelude st) = engineVals st := by
  obtain ⟨m1, m2, -, -, -, -, -, -, -, -⟩ := mock_prelude_frame st
  unfold engineVals
  rw [m1, m2]

lemma engineVals_clear (st : SysState) :
    engineVals { st with BACKEND_PROCESS := none } ⊆ engineVals st := by
  intro x hx
  unfold engineVals at hx ⊢
  rw [List.mem_append] at hx ⊢
  rcases hx with hx | hx
  · exact absurd hx (List.not_mem_nil x)
  · exact Or.inr hx

lemma engineVals_spawn_step (st1 : SysState) :
    engineVals (spawn_step st1).1 ⊆ engineVals st1 := by
  unfold spawn_step
  rcases hsq : st1.spawn_queue with _ | ⟨o, rest⟩
  · intro x hx
    unfold engineVals at hx ⊢
    rw [List.mem_append] at hx ⊢
    rcases hx with hx | hx
    · exact Or.inl hx
    · rw [hsq]
      exact Or.inr hx
  · cases o with
    | none =>
      intro x hx
      unfold engineVals at hx ⊢
      rw [List.mem_append] at hx ⊢
      rcases hx with hx | hx
      · exact Or.inl hx
      · right
        rw [hsq]
        unfold spawnVals at hx ⊢
        rw [List.map_cons, List.flatten_cons]
        exact List.mem_append_right _ hx
    | some q =>
      intro x hx
      unfold engineVals at hx ⊢
      rw [List.mem_append] at hx ⊢
      rcases hx with hx | hx
      · right
        rw [hsq]
        unfold spawnVals
        rw [List.map_cons, List.flatten_cons]
        exact List.mem_append_left _ (subvals_readline q hx)
      · right
        rw [hsq]
        unfold spawnVals at hx ⊢
        rw [List.map_cons, List.flatten_cons]
        exact List.mem_append_right _ hx

lemma engineVals_start_backend (st : SysState) :
    engineVals (start_backend st).1 ⊆ engineVals st := by
  unfold start_backend
  split
  · exact fun x hx => hx
  · split
    · exact fun x hx => hx
    · rcases hm : runStartupSync st with ⟨st1, e⟩
      have hst : st1 = st := by
        have h2 := runStartupSync_state st
        rw [hm] at h2
        exact h2
      subst hst
      cases e with
      | none =>
        dsimp only
        exact engineVals_spawn_step st1
      | some err =>
        dsimp only
        intro x hx
        exact engineVals_spawn_step { st1 with USE_MOCK_BACKEND := true } hx

/-- Claim C7 (amended): send_to_backend is total — every failure path
(process start failure, absent or dead handle, empty output, JSON decode
failure) yields a returned mapping with success and message fields — and a
successfully parsed engine line is returned verbatim, so the response is
well-formed exactly when the engine line carried those fields. -/
theorem call_never_raises (st : SysState) (payload : Json) :
    wellFormedResp (send_to_backend st payload).2.1 = true ∨
    (send_to_backend st payload).2.1 ∈ engineVals st := by
  unfold send_to_backend
  dsimp only
  rcases hbp : (start_backend (mock_prelude st)).1.BACKEND_PROCESS with _ | p
  · exact Or.inl rfl
  · dsimp only
    have hsub : engineVals (start_backend (mock_prelude st)).1 ⊆ engineVals st := by
      intro x hx
      have h1 := engineVals_start_backend (mock_prelude st) hx
      rw [engineVals_mock] at h1
      exact h1
    cases hex : p.exited with
    | false =>
      simp only [Bool.false_eq_true, if_false]
      rcases writeAndRead_resp (start_backend (mock_prelude st)).1 payload
        with hw | hw
      · exact Or.inl hw
      · exact Or.inr (hsub (procVals_subset_engineVals _ hw))
    | true =>
      simp only [if_true]
      rcases writeAndRead_resp
        (start_backend { (start_backend (mock_prelude st)).1 with
          BACKEND_PROCESS := none }).1 payload with hw | hw
      · exact Or.inl hw
      · refine Or.inr (hsub (engineVals_clear _ (engineVals_start_backend _
          (procVals_subset_engineVals _ hw))))

/-- Counterexample to C7 as stated: a valid JSON line that is not an object
with success and message fields is returned verbatim, so the caller does
not always receive a well-formed response. -/
theorem call_can_return_non_object :
    (send_to_backend bareNumberState undoPayload).2.1 = Json.num 42 ∧
    wellFormedResp (send_to_backend bareNumberState undoPayload).2.1 = false ∧
    ((send_to_backend bareNumberState undoPayload).2.1).getField "success"
      = none := by
  exact ⟨rfl, rfl, rfl⟩

end App
